import Mathlib

/-!
A shallow embedding of the `simple.vm` virtual machine.

The data model (register count, the tagged register value, the zero
flag, the 255-entry opcode dispatch table, the opcode byte values and
the machine structure) is taken from `src/simple-vm.h`.  The repository
ships only that header: the instruction handlers and the run loop are
not available, so their behaviour is modelled from the specification
(sections 4.4 and 4.5 of the design document), with each such
definition marked `Modelled from the spec:` in its doc comment.
-/

/-- `#define REGISTER_COUNT 10` in `simple-vm.h`. -/
def REGISTER_COUNT : Nat := 10

/-- Register integers are C `unsigned int` (32 bits on the supported
platforms), so integer arithmetic is performed modulo `2 ^ 32`. -/
def UINT_MOD : Nat := 2 ^ 32

/-- A single register holds exactly one of an unsigned integer or an
owned string (`reg_t` in `simple-vm.h`: a tagged union with
`enum { INTEGER, STRING } type`). -/
inductive RegValue where
  | INTEGER (n : Nat)
  | STRING (s : String)
deriving DecidableEq, Repr

/-- `flag_t` in `simple-vm.h`: a single zero-flag `z`. -/
structure flag_t where
  z : Bool
deriving DecidableEq, Repr

/-- The execution-engine state machine of spec section 4.5:
`Ready`, `Running`, `Halted(normal)`, `Halted(error)`. -/
inductive MachState where
  | Ready
  | Running
  | HaltedNormal
  | HaltedError
deriving DecidableEq, Repr

/-- The machine (`svm_t` in `simple-vm.h`): registers, flags, the
instruction pointer, the loaded code, the addressable memory used by
the RAM opcodes, the log of Error Channel invocations (each call of
the error handler appends its message), the `running` flag, and the
spec section 4.5 state. -/
@[ext]
structure svm_t where
  registers : List RegValue
  flags : flag_t
  ip : Nat
  code : List (Fin 256)
  ram : List (Nat × Nat)
  errors : List String
  running : Bool
  state : MachState
deriving DecidableEq, Repr

/-- The size of the loaded program (`svm_t.size` in `simple-vm.h`,
always the length of the loaded code). -/
def svm_size (m : svm_t) : Nat := m.code.length

/-- `svm_new`: a fresh machine.  Modelled from the spec: construction
"resets all registers/flags/pointer to defined initial states"
(section 3); registers start as integer 0, the flag clear, the pointer
at 0, the RAM empty, no error reported, state `Ready`. -/
def svm_new (code : List (Fin 256)) : svm_t :=
  { registers := List.replicate REGISTER_COUNT (RegValue.INTEGER 0)
    flags := { z := false }
    ip := 0
    code := code
    ram := []
    errors := []
    running := false
    state := MachState.Ready }

/-- Invoking the Error Channel and halting: the message is delivered
to the (single, replaceable) error sink exactly once and the machine
transitions to `Halted(error)` (spec sections 4.6 and 4.5). -/
def errorHalt (m : svm_t) (msg : String) : svm_t :=
  { m with errors := m.errors ++ [msg]
           running := false
           state := MachState.HaltedError }

/-- `set_integer` of the Value Model (spec section 4.1): store an
integer value in a register, replacing any previous value and type;
an out-of-range index is a fatal error.  Modelled from the spec. -/
def set_integer (m : svm_t) (i : Nat) (v : Nat) : svm_t :=
  if i < REGISTER_COUNT then
    { m with registers := m.registers.set i (RegValue.INTEGER v) }
  else
    errorHalt m "register index out of range"

/-- `get_integer` of the Value Model (spec section 4.1): read a
register as an integer; reading a string-typed register is a type
error, an out-of-range index a range error.  Modelled from the spec. -/
def get_integer (m : svm_t) (i : Nat) : Except String Nat :=
  if i < REGISTER_COUNT then
    match m.registers[i]? with
    | some (RegValue.INTEGER n) => Except.ok n
    | some (RegValue.STRING _) => Except.error "type mismatch"
    | none => Except.error "register index out of range"
  else
    Except.error "register index out of range"

/-- `get_string` of the Value Model (spec section 4.1).  Modelled from
the spec. -/
def get_string (m : svm_t) (i : Nat) : Except String String :=
  if i < REGISTER_COUNT then
    match m.registers[i]? with
    | some (RegValue.STRING s) => Except.ok s
    | some (RegValue.INTEGER _) => Except.error "type mismatch"
    | none => Except.error "register index out of range"
  else
    Except.error "register index out of range"

/-- Read any register value (used by `CMP_REG`, which compares the two
registers' values whatever their type).  Modelled from the spec. -/
def get_value (m : svm_t) (i : Nat) : Except String RegValue :=
  if i < REGISTER_COUNT then
    match m.registers[i]? with
    | some v => Except.ok v
    | none => Except.error "register index out of range"
  else
    Except.error "register index out of range"

/-- Write a register (index already checked by the caller). -/
def setReg (m : svm_t) (i : Nat) (v : RegValue) : svm_t :=
  { m with registers := m.registers.set i v }

/-- Fetch the operand byte `k` bytes past the opcode; reading past the
end of the program is a fatal instruction-pointer-range error (the
spec never reads past the end, section 3 "Program"). -/
def operand (m : svm_t) (k : Nat) : Except String Nat :=
  match m.code[m.ip + k]? with
  | some b => Except.ok b.val
  | none => Except.error "instruction pointer out of range"

/-- Decode a 32-bit little-endian immediate starting `k` bytes past
the opcode.  Modelled from the spec: section 6 fixes 32-bit integer
operands with a fixed documented endianness; this embedding fixes
little-endian. -/
def immediate (m : svm_t) (k : Nat) : Except String Nat :=
  match m.code[m.ip + k]?, m.code[m.ip + k + 1]?,
        m.code[m.ip + k + 2]?, m.code[m.ip + k + 3]? with
  | some b0, some b1, some b2, some b3 =>
      Except.ok (b0.val + 256 * (b1.val + 256 * (b2.val + 256 * b3.val)))
  | _, _, _, _ => Except.error "instruction pointer out of range"

/-- The five binary math opcodes `XOR/ADD/SUB/MUL/DIV_OP`. -/
inductive BinKind where
  | xor
  | add
  | sub
  | mul
  | div
deriving DecidableEq, Repr

/-- Result of a binary math opcode on two unsigned-int register
values: C `unsigned int` arithmetic, i.e. modulo `2 ^ 32`. -/
def binEval : BinKind → Nat → Nat → Nat
  | BinKind.xor, a, b => Nat.xor a b
  | BinKind.add, a, b => (a + b) % UINT_MOD
  | BinKind.sub, a, b => (UINT_MOD + a - b) % UINT_MOD
  | BinKind.mul, a, b => (a * b) % UINT_MOD
  | BinKind.div, a, b => a / b

/-- The opcodes of `simple-vm.h` as an inductive tag (one per handler
registered in the dispatch table). -/
inductive Opcode where
  | Exit
  | IntStore
  | IntPrint
  | IntToString
  | JumpTo
  | JumpZ
  | JumpNZ
  | Bin (k : BinKind)
  | Inc
  | Dec
  | StrStore
  | StrPrint
  | StrConcat
  | StrSystem
  | StrToInt
  | CmpReg
  | CmpImmediate
  | Nop
  | LoadFromRam
  | StoreInRam
deriving DecidableEq, Repr

/-- The opcode byte values of `simple-vm.h` (lines 42-99): which
handler `svm_new` registers for each opcode byte; `none` for a byte
with no registered handler. -/
def opcodeOf : Nat → Option Opcode
  | 0x00 => some Opcode.Exit
  | 0x01 => some Opcode.IntStore
  | 0x02 => some Opcode.IntPrint
  | 0x03 => some Opcode.IntToString
  | 0x10 => some Opcode.JumpTo
  | 0x11 => some Opcode.JumpZ
  | 0x12 => some Opcode.JumpNZ
  | 0x20 => some (Opcode.Bin BinKind.xor)
  | 0x21 => some (Opcode.Bin BinKind.add)
  | 0x22 => some (Opcode.Bin BinKind.sub)
  | 0x23 => some (Opcode.Bin BinKind.mul)
  | 0x24 => some (Opcode.Bin BinKind.div)
  | 0x25 => some Opcode.Inc
  | 0x26 => some Opcode.Dec
  | 0x30 => some Opcode.StrStore
  | 0x31 => some Opcode.StrPrint
  | 0x32 => some Opcode.StrConcat
  | 0x33 => some Opcode.StrSystem
  | 0x34 => some Opcode.StrToInt
  | 0x40 => some Opcode.CmpReg
  | 0x41 => some Opcode.CmpImmediate
  | 0x50 => some Opcode.Nop
  | 0x60 => some Opcode.LoadFromRam
  | 0x61 => some Opcode.StoreInRam
  | _ => none

/-- The dispatch table of `simple-vm.h` holds 255 handler slots:
`opcode_implementation *opcodes[255];`. -/
def opcodesTableSize : Nat := 255

/-- Looking a byte up in the dispatch table: `none` when the byte is
not a valid index of the 255-slot table at all, `some none` when the
slot exists but no handler is registered, `some (some op)` when the
slot holds the handler for `op`. -/
def tableLookup (b : Nat) : Option (Option Opcode) :=
  if b < opcodesTableSize then some (opcodeOf b) else none

/-- Load from the addressable memory: a never-stored address reads as
the defined default 0 (spec section 4.3).  Modelled from the spec. -/
def ramLoad (ram : List (Nat × Nat)) (a : Nat) : Nat :=
  match ram.find? (fun p => p.1 == a) with
  | some p => p.2
  | none => 0

/-- Store to the addressable memory.  Modelled from the spec. -/
def ramStore (ram : List (Nat × Nat)) (a : Nat) (v : Nat) : List (Nat × Nat) :=
  (a, v) :: ram

/-- Read `len` literal bytes starting `k` bytes past the opcode, as a
string (for `STRING_STORE`; the spec section 6 allows a
length-prefixed literal, which this embedding fixes). -/
def literalString (m : svm_t) (k : Nat) (len : Nat) : Except String String :=
  match (List.range len).mapM (fun j => m.code[m.ip + k + j]?) with
  | some bs => Except.ok (String.mk (bs.map (fun b => Char.ofNat b.val)))
  | none => Except.error "instruction pointer out of range"

/-- Execute one binary math opcode (`XOR/ADD/SUB/MUL/DIV_OP`).
Modelled from the spec (section 4.4): operands are three register
bytes `dest, src1, src2`; the sources are read as integers (a
string-typed source is a type error); `DIV` with a zero divisor is a
fatal `DivisionByZero` error reported through the Error Channel
before the destination is written; otherwise the destination receives
the result and the zero-flag is set exactly when the result is 0. -/
def execBin (k : BinKind) (m : svm_t) : svm_t :=
  match operand m 1, operand m 2, operand m 3 with
  | Except.ok d, Except.ok s1, Except.ok s2 =>
    if d < REGISTER_COUNT then
      match get_integer m s1, get_integer m s2 with
      | Except.ok a, Except.ok b =>
        if k = BinKind.div ∧ b = 0 then
          errorHalt m "division by zero"
        else
          { m with registers := m.registers.set d (RegValue.INTEGER (binEval k a b))
                   flags := { z := decide (binEval k a b = 0) }
                   ip := m.ip + 4 }
      | Except.error e, _ => errorHalt m e
      | _, Except.error e => errorHalt m e
    else
      errorHalt m "register index out of range"
  | Except.error e, _, _ => errorHalt m e
  | _, Except.error e, _ => errorHalt m e
  | _, _, Except.error e => errorHalt m e

/-- Execute one decoded opcode.  Modelled from the spec: the opcode
catalogue of section 4.4 (operand widths, effects, zero-flag updates,
error conditions), with jumps setting the pointer directly and every
other handler advancing it by the instruction's byte length. -/
def execOp : Opcode → svm_t → svm_t
  | Opcode.Exit, m =>
      { m with running := false, state := MachState.HaltedNormal }
  | Opcode.IntStore, m =>
      match operand m 1, immediate m 2 with
      | Except.ok r, Except.ok v =>
          if r < REGISTER_COUNT then
            { m with registers := m.registers.set r (RegValue.INTEGER v)
                     ip := m.ip + 6 }
          else errorHalt m "register index out of range"
      | Except.error e, _ => errorHalt m e
      | _, Except.error e => errorHalt m e
  | Opcode.IntPrint, m =>
      match operand m 1 with
      | Except.ok r =>
          match get_integer m r with
          | Except.ok _ => { m with ip := m.ip + 2 }
          | Except.error e => errorHalt m e
      | Except.error e => errorHalt m e
  | Opcode.IntToString, m =>
      match operand m 1 with
      | Except.ok r =>
          match get_integer m r with
          | Except.ok n => { (setReg m r (RegValue.STRING (toString n))) with ip := m.ip + 2 }
          | Except.error e => errorHalt m e
      | Except.error e => errorHalt m e
  | Opcode.JumpTo, m =>
      match immediate m 1 with
      | Except.ok a => { m with ip := a }
      | Except.error e => errorHalt m e
  | Opcode.JumpZ, m =>
      match immediate m 1 with
      | Except.ok a =>
          if m.flags.z then { m with ip := a } else { m with ip := m.ip + 5 }
      | Except.error e => errorHalt m e
  | Opcode.JumpNZ, m =>
      match immediate m 1 with
      | Except.ok a =>
          if m.flags.z then { m with ip := m.ip + 5 } else { m with ip := a }
      | Except.error e => errorHalt m e
  | Opcode.Bin k, m => execBin k m
  | Opcode.Inc, m =>
      match operand m 1 with
      | Except.ok r =>
          match get_integer m r with
          | Except.ok a =>
              { m with registers := m.registers.set r (RegValue.INTEGER ((a + 1) % UINT_MOD))
                       flags := { z := decide ((a + 1) % UINT_MOD = 0) }
                       ip := m.ip + 2 }
          | Except.error e => errorHalt m e
      | Except.error e => errorHalt m e
  | Opcode.Dec, m =>
      match operand m 1 with
      | Except.ok r =>
          match get_integer m r with
          | Except.ok a =>
              { m with registers := m.registers.set r (RegValue.INTEGER ((UINT_MOD + a - 1) % UINT_MOD))
                       flags := { z := decide ((UINT_MOD + a - 1) % UINT_MOD = 0) }
                       ip := m.ip + 2 }
          | Except.error e => errorHalt m e
      | Except.error e => errorHalt m e
  | Opcode.StrStore, m =>
      match operand m 1, operand m 2 with
      | Except.ok r, Except.ok len =>
          if r < REGISTER_COUNT then
            match literalString m 3 len with
            | Except.ok s =>
                { m with registers := m.registers.set r (RegValue.STRING s)
                         ip := m.ip + 3 + len }
            | Except.error e => errorHalt m e
          else errorHalt m "register index out of range"
      | Except.error e, _ => errorHalt m e
      | _, Except.error e => errorHalt m e
  | Opcode.StrPrint, m =>
      match operand m 1 with
      | Except.ok r =>
          match get_string m r with
          | Except.ok _ => { m with ip := m.ip + 2 }
          | Except.error e => errorHalt m e
      | Except.error e => errorHalt m e
  | Opcode.StrConcat, m =>
      match operand m 1, operand m 2, operand m 3 with
      | Except.ok d, Except.ok s1, Except.ok s2 =>
          if d < REGISTER_COUNT then
            match get_string m s1, get_string m s2 with
            | Except.ok a, Except.ok b =>
                { m with registers := m.registers.set d (RegValue.STRING (a ++ b))
                         ip := m.ip + 4 }
            | Except.error e, _ => errorHalt m e
            | _, Except.error e => errorHalt m e
          else errorHalt m "register index out of range"
      | Except.error e, _, _ => errorHalt m e
      | _, Except.error e, _ => errorHalt m e
      | _, _, Except.error e => errorHalt m e
  | Opcode.StrSystem, m =>
      match operand m 1 with
      | Except.ok r =>
          match get_string m r with
          | Except.ok _ => { m with ip := m.ip + 2 }
          | Except.error e => errorHalt m e
      | Except.error e => errorHalt m e
  | Opcode.StrToInt, m =>
      match operand m 1 with
      | Except.ok r =>
          match get_string m r with
          | Except.ok s =>
              match s.toNat? with
              | some n =>
                  { (setReg m r (RegValue.INTEGER (n % UINT_MOD))) with ip := m.ip + 2 }
              | none => errorHalt m "string conversion failure"
          | Except.error e => errorHalt m e
      | Except.error e => errorHalt m e
  | Opcode.CmpReg, m =>
      match operand m 1, operand m 2 with
      | Except.ok r1, Except.ok r2 =>
          match get_value m r1, get_value m r2 with
          | Except.ok v1, Except.ok v2 =>
              { m with flags := { z := decide (v1 = v2) }
                       ip := m.ip + 3 }
          | Except.error e, _ => errorHalt m e
          | _, Except.error e => errorHalt m e
      | Except.error e, _ => errorHalt m e
      | _, Except.error e => errorHalt m e
  | Opcode.CmpImmediate, m =>
      match operand m 1, immediate m 2 with
      | Except.ok r, Except.ok v =>
          match get_integer m r with
          | Except.ok a =>
              { m with flags := { z := decide (a = v) }
                       ip := m.ip + 6 }
          | Except.error e => errorHalt m e
      | Except.error e, _ => errorHalt m e
      | _, Except.error e => errorHalt m e
  | Opcode.Nop, m => { m with ip := m.ip + 1 }
  | Opcode.LoadFromRam, m =>
      match operand m 1, operand m 2 with
      | Except.ok d, Except.ok s =>
          if d < REGISTER_COUNT then
            match get_integer m s with
            | Except.ok a =>
                { m with registers := m.registers.set d (RegValue.INTEGER (ramLoad m.ram a))
                         ip := m.ip + 3 }
            | Except.error e => errorHalt m e
          else errorHalt m "register index out of range"
      | Except.error e, _ => errorHalt m e
      | _, Except.error e => errorHalt m e
  | Opcode.StoreInRam, m =>
      match operand m 1, operand m 2 with
      | Except.ok d, Except.ok s =>
          match get_integer m d, get_integer m s with
          | Except.ok a, Except.ok v =>
              { m with ram := ramStore m.ram a v
                       ip := m.ip + 3 }
          | Except.error e, _ => errorHalt m e
          | _, Except.error e => errorHalt m e
      | Except.error e, _ => errorHalt m e
      | _, Except.error e => errorHalt m e

/-- One fetch-decode-execute step of the Execution Engine.  Modelled
from the spec (section 4.5): while `Running`, fetch the opcode byte at
the instruction pointer; a pointer at or past the program length is a
fatal out-of-bounds error; a byte outside the 255-slot dispatch
table's index range is a fatal out-of-table error; a byte whose slot
has no registered handler is a fatal unknown-opcode error; otherwise
the registered handler runs.  In any non-`Running` state a step does
nothing. -/
def svm_step (m : svm_t) : svm_t :=
  if m.state = MachState.Running then
    match m.code[m.ip]? with
    | none => errorHalt m "instruction pointer out of range"
    | some b =>
        match tableLookup b.val with
        | none => errorHalt m "opcode out of dispatch table range"
        | some none => errorHalt m "unknown opcode"
        | some (some op) => execOp op m
  else m

/-- The fuelled execution loop: step while `Running`. -/
def svm_loop : Nat → svm_t → svm_t
  | 0, m => m
  | n + 1, m =>
      if m.state = MachState.Running then svm_loop n (svm_step m) else m

/-- `svm_run`: enter the `Running` state and loop.  Modelled from the
spec (section 4.5): `Ready → Running` on the run entry point, then
fetch-dispatch until a `Halted` state. -/
def svm_run (m : svm_t) (fuel : Nat) : svm_t :=
  svm_loop fuel { m with running := true, state := MachState.Running }

/-- A machine mid-run: fresh but for given registers, in the `Running`
state (used to instantiate universally quantified theorems). -/
def mkRunning (code : List (Fin 256)) (regs : List RegValue) : svm_t :=
  { svm_new code with registers := regs
                      running := true
                      state := MachState.Running }

/-- The register file of a fresh machine. -/
def initRegs : List RegValue := List.replicate REGISTER_COUNT (RegValue.INTEGER 0)

theorem svm_loop_of_halted (n : Nat) (m : svm_t)
    (h : m.state ≠ MachState.Running) : svm_loop n m = m := by
  cases n <;> simp [svm_loop, h]

theorem errorHalt_flags (m : svm_t) (msg : String) :
    (errorHalt m msg).flags = m.flags := rfl

theorem errorHalt_registers (m : svm_t) (msg : String) :
    (errorHalt m msg).registers = m.registers := rfl

/-- C8: for every register index in `[0, 10)` and every unsigned
integer value, `set_integer` on that register followed by
`get_integer` on the same register returns the original value. -/
theorem C8_set_integer_get_integer (m : svm_t) (i v : Nat)
    (hlen : m.registers.length = REGISTER_COUNT)
    (hi : i < REGISTER_COUNT) (hv : v < UINT_MOD) :
    get_integer (set_integer m i v) i = Except.ok v := by
  simp [set_integer, get_integer, hi]
  rw [List.getElem?_set_self (by rw [hlen]; exact hi)]

/-- Witness for C8 at register 3 and value 42. -/
theorem C8_witness :
    get_integer (set_integer (svm_new []) 3 42) 3 = Except.ok 42 :=
  C8_set_integer_get_integer (svm_new []) 3 42 (by decide) (by decide)
    (by norm_num [UINT_MOD])

/-- C10: the dispatch table of `simple-vm.h` holds exactly 255 handler
slots (`opcodes[255]`), every byte below 255 is a valid index holding
the registered handler (or no handler) for that byte, a fetched
program byte ranges over 0..255, and indexing the table at 255 is
outside its domain: the lookup yields no entry at all, so byte 0xFF is
not covered by the registered/unregistered-handler distinction. -/
theorem C10_dispatch_table_byte_255 :
    opcodesTableSize = 255 ∧
    tableLookup 255 = none ∧
    (∀ b : Nat, b < opcodesTableSize → tableLookup b = some (opcodeOf b)) ∧
    (∀ (m : svm_t) (b : Fin 256), m.code[m.ip]? = some b → b.val ≤ 255) := by
  refine ⟨rfl, rfl, ?_, ?_⟩
  · intro b hb
    simp [tableLookup, hb]
  · intro m b _
    exact Nat.le_of_lt_succ b.isLt

/-- Witness for C10: the table covers byte 0x24 and a machine whose
program is the single byte 0xFF fetches a byte bounded by 255. -/
theorem C10_witness :
    tableLookup 0x24 = some (opcodeOf 0x24) ∧
    ((0xFF : Fin 256)).val ≤ 255 :=
  ⟨C10_dispatch_table_byte_255.2.2.1 0x24 (by decide),
   C10_dispatch_table_byte_255.2.2.2 (svm_new [(0xFF : Fin 256)])
     (0xFF : Fin 256) rfl⟩

theorem execBin_ram (k : BinKind) (m : svm_t) : (execBin k m).ram = m.ram := by
  simp only [execBin]
  repeat' split
  all_goals simp [errorHalt]

theorem execOp_ram (op : Opcode) (m : svm_t) :
    (execOp op m).ram = m.ram ∨
      ∃ a v, (execOp op m).ram = ramStore m.ram a v := by
  cases op
  case Bin k => exact Or.inl (execBin_ram k m)
  case StoreInRam =>
    simp only [execOp]
    repeat' split
    all_goals first
      | exact Or.inr ⟨_, _, rfl⟩
      | (left; simp [errorHalt])
  all_goals
    left
    simp only [execOp]
    repeat' split
    all_goals rfl

/-- C7: a RAM address that has never been the target of a
`STORE_IN_RAM` since machine construction loads as the defined default
0: a fresh machine's memory is empty, loading an address absent from
the memory yields 0, a store to a different address does not change
what an address loads as, and a machine step either leaves the memory
untouched or performs exactly one `ramStore`. -/
theorem C7_unwritten_ram_loads_zero :
    (∀ code, (svm_new code).ram = []) ∧
    (∀ (ram : List (Nat × Nat)) (a : Nat),
        a ∉ ram.map Prod.fst → ramLoad ram a = 0) ∧
    (∀ (ram : List (Nat × Nat)) (a a' v : Nat),
        a ≠ a' → ramLoad (ramStore ram a' v) a = ramLoad ram a) ∧
    (∀ m : svm_t, (svm_step m).ram = m.ram ∨
        ∃ a v, (svm_step m).ram = ramStore m.ram a v) := by
  refine ⟨fun _ => rfl, ?_, ?_, ?_⟩
  · intro ram a ha
    induction ram with
    | nil => rfl
    | cons p t ih =>
        simp only [List.map_cons, List.mem_cons, not_or] at ha
        simp only [ramLoad, List.find?]
        rw [show (p.1 == a) = false from beq_eq_false_iff_ne.mpr (Ne.symm ha.1)]
        exact ih ha.2
  · intro ram a a' v h
    simp only [ramLoad, ramStore, List.find?]
    rw [show (a' == a) = false from beq_eq_false_iff_ne.mpr (Ne.symm h)]
  · intro m
    by_cases hst : m.state = MachState.Running
    · cases hfetch : m.code[m.ip]? with
      | none => simp [svm_step, hst, hfetch, errorHalt]
      | some b =>
          cases htl : tableLookup b.val with
          | none => simp [svm_step, hst, hfetch, htl, errorHalt]
          | some o =>
              cases o with
              | none => simp [svm_step, hst, hfetch, htl, errorHalt]
              | some op =>
                  have hs : svm_step m = execOp op m := by
                    simp [svm_step, hst, hfetch, htl]
                  rw [hs]
                  exact execOp_ram op m
    · simp [svm_step, hst]

/-- Witness for C7: address 5 of a fresh machine, never stored, loads
as 0; a store to address 7 leaves address 5 loading as 0; and a step
of a fresh machine does not store. -/
theorem C7_witness :
    ramLoad (svm_new []).ram 5 = 0 ∧
    ramLoad (ramStore (svm_new []).ram 7 3) 5 = ramLoad (svm_new []).ram 5 ∧
    ((svm_step (svm_new [])).ram = (svm_new []).ram ∨
      ∃ a v, (svm_step (svm_new [])).ram = ramStore (svm_new []).ram a v) :=
  ⟨C7_unwritten_ram_loads_zero.2.1 (svm_new []).ram 5 (by decide),
   C7_unwritten_ram_loads_zero.2.2.1 (svm_new []).ram 5 7 3 (by decide),
   C7_unwritten_ram_loads_zero.2.2.2 (svm_new [])⟩

/-- C4: while `Running`, an instruction pointer at or past the program
length makes the very next step transition to `Halted(error)` with an
out-of-range message, leaving the pointer and registers untouched (no
wrap-around); and a byte is only ever fetched at an index strictly
below the program length. -/
theorem C4_ip_out_of_bounds_halts :
    (∀ m : svm_t, m.state = MachState.Running → svm_size m ≤ m.ip →
        svm_step m = errorHalt m "instruction pointer out of range" ∧
        (svm_step m).state = MachState.HaltedError ∧
        (svm_step m).running = false ∧
        (svm_step m).ip = m.ip ∧
        (svm_step m).registers = m.registers) ∧
    (∀ (m : svm_t) (b : Fin 256),
        m.code[m.ip]? = some b → m.ip < svm_size m) := by
  constructor
  · intro m hst hip
    have hfetch : m.code[m.ip]? = none := List.getElem?_eq_none hip
    simp [svm_step, hst, hfetch, errorHalt]
  · intro m b hb
    by_contra h
    rw [List.getElem?_eq_none (Nat.le_of_not_lt h)] at hb
    exact Option.noConfusion hb

/-- A running machine whose one-byte program is exhausted: the
instruction pointer (1) equals the program length. -/
def pastEndMachine : svm_t :=
  { mkRunning [(0x50 : Fin 256)] initRegs with ip := 1 }

/-- Witness for C4: stepping `pastEndMachine` halts in error, and the
fetch of a one-byte program's opcode happens at index 0 < 1. -/
theorem C4_witness :
    (svm_step pastEndMachine).state = MachState.HaltedError ∧
    (mkRunning [(0x50 : Fin 256)] initRegs).ip
        < svm_size (mkRunning [(0x50 : Fin 256)] initRegs) := by
  constructor
  · exact (C4_ip_out_of_bounds_halts.1 pastEndMachine rfl (by decide)).2.1
  · exact C4_ip_out_of_bounds_halts.2 (mkRunning [(0x50 : Fin 256)] initRegs)
      (0x50 : Fin 256) rfl

/-- C1: executing `DIV_OP` with integer-typed sources where the
divisor register holds 0 reports a division-by-zero fatal error
through the Error Channel (exactly one new message) and halts the
machine in `Halted(error)` without mutating any register: the
destination still holds its prior value in the halted state. -/
theorem C1_div_by_zero_halts_unchanged (m : svm_t) (d s1 s2 : Fin 256)
    (a : Nat)
    (hst : m.state = MachState.Running)
    (h0 : m.code[m.ip]? = some (0x24 : Fin 256))
    (h1 : m.code[m.ip + 1]? = some d)
    (h2 : m.code[m.ip + 2]? = some s1)
    (h3 : m.code[m.ip + 3]? = some s2)
    (hd : d.val < REGISTER_COUNT)
    (ha : get_integer m s1.val = Except.ok a)
    (hb : get_integer m s2.val = Except.ok 0) :
    (svm_step m).registers = m.registers ∧
    (svm_step m).errors = m.errors ++ ["division by zero"] ∧
    (svm_step m).state = MachState.HaltedError ∧
    (svm_step m).running = false := by
  have ht : tableLookup ((0x24 : Fin 256)).val
      = some (some (Opcode.Bin BinKind.div)) := by decide
  simp [svm_step, execOp, execBin, operand, hst, h0, h1, h2, h3, hd,
        ha, hb, ht, errorHalt]

/-- Witness for C1: `DIV r2, r0, r1` with `r0 = 5`, `r1 = 0`. -/
theorem C1_witness :
    (svm_step (mkRunning [(0x24 : Fin 256), 2, 0, 1]
        [RegValue.INTEGER 5, RegValue.INTEGER 0, RegValue.INTEGER 9,
         RegValue.INTEGER 0, RegValue.INTEGER 0, RegValue.INTEGER 0,
         RegValue.INTEGER 0, RegValue.INTEGER 0, RegValue.INTEGER 0,
         RegValue.INTEGER 0])).registers
      = (mkRunning [(0x24 : Fin 256), 2, 0, 1]
        [RegValue.INTEGER 5, RegValue.INTEGER 0, RegValue.INTEGER 9,
         RegValue.INTEGER 0, RegValue.INTEGER 0, RegValue.INTEGER 0,
         RegValue.INTEGER 0, RegValue.INTEGER 0, RegValue.INTEGER 0,
         RegValue.INTEGER 0]).registers ∧
    (svm_step (mkRunning [(0x24 : Fin 256), 2, 0, 1]
        [RegValue.INTEGER 5, RegValue.INTEGER 0, RegValue.INTEGER 9,
         RegValue.INTEGER 0, RegValue.INTEGER 0, RegValue.INTEGER 0,
         RegValue.INTEGER 0, RegValue.INTEGER 0, RegValue.INTEGER 0,
         RegValue.INTEGER 0])).errors
      = (mkRunning [(0x24 : Fin 256), 2, 0, 1]
        [RegValue.INTEGER 5, RegValue.INTEGER 0, RegValue.INTEGER 9,
         RegValue.INTEGER 0, RegValue.INTEGER 0, RegValue.INTEGER 0,
         RegValue.INTEGER 0, RegValue.INTEGER 0, RegValue.INTEGER 0,
         RegValue.INTEGER 0]).errors ++ ["division by zero"] :=
  have h := C1_div_by_zero_halts_unchanged
    (mkRunning [(0x24 : Fin 256), 2, 0, 1]
        [RegValue.INTEGER 5, RegValue.INTEGER 0, RegValue.INTEGER 9,
         RegValue.INTEGER 0, RegValue.INTEGER 0, RegValue.INTEGER 0,
         RegValue.INTEGER 0, RegValue.INTEGER 0, RegValue.INTEGER 0,
         RegValue.INTEGER 0])
    2 0 1 5 rfl rfl rfl rfl rfl (by decide) rfl rfl
  ⟨h.1, h.2.1⟩

/-- C2: executing `DIV_OP dest, src1, src2` with integer sources `a`
and `b ≠ 0` stores the integer quotient `a / b` in the destination
register and sets the zero flag exactly when that quotient is 0. -/
theorem C2_div_quotient_and_flag (m : svm_t) (d s1 s2 : Fin 256)
    (a b : Nat)
    (hst : m.state = MachState.Running)
    (h0 : m.code[m.ip]? = some (0x24 : Fin 256))
    (h1 : m.code[m.ip + 1]? = some d)
    (h2 : m.code[m.ip + 2]? = some s1)
    (h3 : m.code[m.ip + 3]? = some s2)
    (hd : d.val < REGISTER_COUNT)
    (ha : get_integer m s1.val = Except.ok a)
    (hb : get_integer m s2.val = Except.ok b)
    (haU : a < UINT_MOD) (hbU : b < UINT_MOD) (hb0 : b ≠ 0) :
    (svm_step m).registers
        = m.registers.set d.val (RegValue.INTEGER (a / b)) ∧
    (svm_step m).flags.z = decide (a / b = 0) := by
  have ht : tableLookup ((0x24 : Fin 256)).val
      = some (some (Opcode.Bin BinKind.div)) := by decide
  simp [svm_step, execOp, execBin, operand, hst, h0, h1, h2, h3, hd,
        ha, hb, ht, hb0, binEval]

/-- Witness for C2: `DIV r2, r0, r1` with `r0 = 7`, `r1 = 2` yields
`r2 = 3` with the zero flag clear. -/
theorem C2_witness :
    (svm_step (mkRunning [(0x24 : Fin 256), 2, 0, 1]
        [RegValue.INTEGER 7, RegValue.INTEGER 2, RegValue.INTEGER 0,
         RegValue.INTEGER 0, RegValue.INTEGER 0, RegValue.INTEGER 0,
         RegValue.INTEGER 0, RegValue.INTEGER 0, RegValue.INTEGER 0,
         RegValue.INTEGER 0])).registers
      = (mkRunning [(0x24 : Fin 256), 2, 0, 1]
        [RegValue.INTEGER 7, RegValue.INTEGER 2, RegValue.INTEGER 0,
         RegValue.INTEGER 0, RegValue.INTEGER 0, RegValue.INTEGER 0,
         RegValue.INTEGER 0, RegValue.INTEGER 0, RegValue.INTEGER 0,
         RegValue.INTEGER 0]).registers.set 2 (RegValue.INTEGER (7 / 2)) ∧
    (svm_step (mkRunning [(0x24 : Fin 256), 2, 0, 1]
        [RegValue.INTEGER 7, RegValue.INTEGER 2, RegValue.INTEGER 0,
         RegValue.INTEGER 0, RegValue.INTEGER 0, RegValue.INTEGER 0,
         RegValue.INTEGER 0, RegValue.INTEGER 0, RegValue.INTEGER 0,
         RegValue.INTEGER 0])).flags.z = decide ((7 : Nat) / 2 = 0) :=
  C2_div_quotient_and_flag
    (mkRunning [(0x24 : Fin 256), 2, 0, 1]
        [RegValue.INTEGER 7, RegValue.INTEGER 2, RegValue.INTEGER 0,
         RegValue.INTEGER 0, RegValue.INTEGER 0, RegValue.INTEGER 0,
         RegValue.INTEGER 0, RegValue.INTEGER 0, RegValue.INTEGER 0,
         RegValue.INTEGER 0])
    2 0 1 7 2 rfl rfl rfl rfl rfl (by decide) rfl rfl
    (by norm_num [UINT_MOD]) (by norm_num [UINT_MOD]) (by decide)

/-- C9: register integers are C `unsigned int`s, so arithmetic wraps
modulo `2 ^ 32`: `DEC_OP` on a register holding 0 yields `2 ^ 32 - 1`
and clears the zero flag, and `INC_OP` on a register holding
`2 ^ 32 - 1` yields 0 and sets the zero flag. -/
theorem C9_inc_dec_wrap_mod_2_32 :
    (∀ (m : svm_t) (r : Fin 256),
        m.state = MachState.Running →
        m.code[m.ip]? = some (0x26 : Fin 256) →
        m.code[m.ip + 1]? = some r →
        get_integer m r.val = Except.ok 0 →
        (svm_step m).registers
            = m.registers.set r.val (RegValue.INTEGER (2 ^ 32 - 1)) ∧
        (svm_step m).flags.z = false) ∧
    (∀ (m : svm_t) (r : Fin 256),
        m.state = MachState.Running →
        m.code[m.ip]? = some (0x25 : Fin 256) →
        m.code[m.ip + 1]? = some r →
        get_integer m r.val = Except.ok (2 ^ 32 - 1) →
        (svm_step m).registers = m.registers.set r.val (RegValue.INTEGER 0) ∧
        (svm_step m).flags.z = true) := by
  constructor
  · intro m r hst h0 h1 hr
    have ht : tableLookup ((0x26 : Fin 256)).val = some (some Opcode.Dec) := by
      decide
    have hdec : (UINT_MOD + 0 - 1) % UINT_MOD = 2 ^ 32 - 1 := by
      norm_num [UINT_MOD]
    simp [svm_step, execOp, operand, hst, h0, h1, hr, ht, hdec]
    norm_num [UINT_MOD]
  · intro m r hst h0 h1 hr
    have ht : tableLookup ((0x25 : Fin 256)).val = some (some Opcode.Inc) := by
      decide
    have hinc : (2 ^ 32 - 1 + 1) % UINT_MOD = 0 := by norm_num [UINT_MOD]
    simp [svm_step, execOp, operand, hst, h0, h1, hr, ht, hinc]
    norm_num [UINT_MOD]

/-- Witness for C9: `DEC r0` on `r0 = 0` wraps to `2 ^ 32 - 1`;
`INC r0` on `r0 = 2 ^ 32 - 1` wraps to 0 and sets the flag. -/
theorem C9_witness :
    ((svm_step (mkRunning [(0x26 : Fin 256), 0]
        [RegValue.INTEGER 0, RegValue.INTEGER 0, RegValue.INTEGER 0,
         RegValue.INTEGER 0, RegValue.INTEGER 0, RegValue.INTEGER 0,
         RegValue.INTEGER 0, RegValue.INTEGER 0, RegValue.INTEGER 0,
         RegValue.INTEGER 0])).registers
      = (mkRunning [(0x26 : Fin 256), 0]
        [RegValue.INTEGER 0, RegValue.INTEGER 0, RegValue.INTEGER 0,
         RegValue.INTEGER 0, RegValue.INTEGER 0, RegValue.INTEGER 0,
         RegValue.INTEGER 0, RegValue.INTEGER 0, RegValue.INTEGER 0,
         RegValue.INTEGER 0]).registers.set 0 (RegValue.INTEGER (2 ^ 32 - 1))) ∧
    ((svm_step (mkRunning [(0x25 : Fin 256), 0]
        [RegValue.INTEGER (2 ^ 32 - 1), RegValue.INTEGER 0, RegValue.INTEGER 0,
         RegValue.INTEGER 0, RegValue.INTEGER 0, RegValue.INTEGER 0,
         RegValue.INTEGER 0, RegValue.INTEGER 0, RegValue.INTEGER 0,
         RegValue.INTEGER 0])).flags.z = true) :=
  ⟨(C9_inc_dec_wrap_mod_2_32.1 (mkRunning [(0x26 : Fin 256), 0]
        [RegValue.INTEGER 0, RegValue.INTEGER 0, RegValue.INTEGER 0,
         RegValue.INTEGER 0, RegValue.INTEGER 0, RegValue.INTEGER 0,
         RegValue.INTEGER 0, RegValue.INTEGER 0, RegValue.INTEGER 0,
         RegValue.INTEGER 0]) 0 rfl rfl rfl rfl).1,
   (C9_inc_dec_wrap_mod_2_32.2 (mkRunning [(0x25 : Fin 256), 0]
        [RegValue.INTEGER (2 ^ 32 - 1), RegValue.INTEGER 0, RegValue.INTEGER 0,
         RegValue.INTEGER 0, RegValue.INTEGER 0, RegValue.INTEGER 0,
         RegValue.INTEGER 0, RegValue.INTEGER 0, RegValue.INTEGER 0,
         RegValue.INTEGER 0]) 0 rfl rfl rfl rfl).2⟩

/-- C6: running a freshly constructed machine whose program is the
single `EXIT` opcode halts immediately in `Halted(normal)` (`running`
is false) with all 10 registers still holding their initial value and
type (integer 0). -/
theorem C6_exit_program_halts_normal (fuel : Nat) (hf : 1 ≤ fuel) :
    (svm_run (svm_new [(0x00 : Fin 256)]) fuel).state
        = MachState.HaltedNormal ∧
    (svm_run (svm_new [(0x00 : Fin 256)]) fuel).running = false ∧
    (svm_run (svm_new [(0x00 : Fin 256)]) fuel).registers
        = List.replicate REGISTER_COUNT (RegValue.INTEGER 0) ∧
    (svm_run (svm_new [(0x00 : Fin 256)]) fuel).registers.length
        = REGISTER_COUNT := by
  obtain ⟨n, rfl⟩ : ∃ n, fuel = n + 1 :=
    ⟨fuel - 1, (Nat.succ_pred_eq_of_pos hf).symm⟩
  have hstep : svm_loop (n + 1)
      { svm_new [(0x00 : Fin 256)] with running := true
                                        state := MachState.Running }
      = svm_loop n (svm_step
          { svm_new [(0x00 : Fin 256)] with running := true
                                            state := MachState.Running }) := by
    simp [svm_loop, svm_new]
  have hhalt : svm_loop n (svm_step
      { svm_new [(0x00 : Fin 256)] with running := true
                                        state := MachState.Running })
      = svm_step { svm_new [(0x00 : Fin 256)] with running := true
                                                   state := MachState.Running } :=
    svm_loop_of_halted n _ (by decide)
  rw [svm_run, hstep, hhalt]
  refine ⟨rfl, rfl, rfl, rfl⟩

/-- Witness for C6 at fuel 3. -/
theorem C6_witness :
    (svm_run (svm_new [(0x00 : Fin 256)]) 3).state
        = MachState.HaltedNormal ∧
    (svm_run (svm_new [(0x00 : Fin 256)]) 3).registers
        = List.replicate REGISTER_COUNT (RegValue.INTEGER 0) :=
  ⟨(C6_exit_program_halts_normal 3 (by decide)).1,
   (C6_exit_program_halts_normal 3 (by decide)).2.2.1⟩

/-- The machine as `svm_run` enters its loop: freshly constructed,
switched to the `Running` state. -/
def startMachine (code : List (Fin 256)) : svm_t :=
  { svm_new code with running := true, state := MachState.Running }

/-- C5: running a machine whose first fetched opcode byte has no
registered handler invokes the Error Channel exactly once with the
unknown-opcode message and halts in `Halted(error)` with the
instruction pointer still at 0 and the registers untouched: no
further instruction executes. -/
theorem C5_unknown_opcode_halts (code : List (Fin 256)) (b : Fin 256)
    (fuel : Nat) (hf : 1 ≤ fuel)
    (h0 : code[0]? = some b)
    (hdom : b.val < opcodesTableSize)
    (hunreg : opcodeOf b.val = none) :
    (svm_run (svm_new code) fuel).state = MachState.HaltedError ∧
    (svm_run (svm_new code) fuel).running = false ∧
    (svm_run (svm_new code) fuel).errors = ["unknown opcode"] ∧
    (svm_run (svm_new code) fuel).ip = 0 ∧
    (svm_run (svm_new code) fuel).registers = (svm_new code).registers := by
  obtain ⟨n, rfl⟩ : ∃ n, fuel = n + 1 :=
    ⟨fuel - 1, (Nat.succ_pred_eq_of_pos hf).symm⟩
  have hstM : (startMachine code).state = MachState.Running := rfl
  have hfetch : (startMachine code).code[(startMachine code).ip]? = some b := h0
  have htl : tableLookup b.val = some none := by
    simp [tableLookup, hdom, hunreg]
  have hstep : svm_step (startMachine code)
      = errorHalt (startMachine code) "unknown opcode" := by
    rw [svm_step, if_pos hstM, hfetch]
    simp [htl]
  have hrun : svm_run (svm_new code) (n + 1)
      = svm_loop (n + 1) (startMachine code) := rfl
  have hloop : svm_loop (n + 1) (startMachine code)
      = svm_step (startMachine code) := by
    rw [svm_loop, if_pos hstM]
    exact svm_loop_of_halted n _ (by rw [hstep]; simp [errorHalt])
  rw [hrun, hloop, hstep]
  exact ⟨rfl, rfl, rfl, rfl, rfl⟩
/-- Witness for C5: byte 0x05 has no registered handler. -/
theorem C5_witness :
    (svm_run (svm_new [(0x05 : Fin 256)]) 4).state = MachState.HaltedError ∧
    (svm_run (svm_new [(0x05 : Fin 256)]) 4).errors = ["unknown opcode"] :=
  ⟨(C5_unknown_opcode_halts [(0x05 : Fin 256)] (0x05 : Fin 256) 4
      (by decide) rfl (by decide) (by decide)).1,
   (C5_unknown_opcode_halts [(0x05 : Fin 256)] (0x05 : Fin 256) 4
      (by decide) rfl (by decide) (by decide)).2.2.1⟩

/-- The opcodes that write the zero flag: the five math opcodes
`XOR/ADD/SUB/MUL/DIV_OP`, `INC_OP`/`DEC_OP` and the two comparison
opcodes `CMP_REG`/`CMP_IMMEDIATE`. -/
def zWriterOp : Opcode → Bool
  | Opcode.Bin _ => true
  | Opcode.Inc => true
  | Opcode.Dec => true
  | Opcode.CmpReg => true
  | Opcode.CmpImmediate => true
  | _ => false

/-- The opcodes that read the zero flag: the two conditional jumps
`JUMP_Z`/`JUMP_NZ`. -/
def zReaderOp : Opcode → Bool
  | Opcode.JumpZ => true
  | Opcode.JumpNZ => true
  | _ => false

/-- Overwrite the zero flag. -/
def setZ (m : svm_t) (b : Bool) : svm_t := { m with flags := { z := b } }

/-- Blank out the zero flag (for comparing machines up to the flag). -/
def eraseZ (m : svm_t) : svm_t := { m with flags := { z := false } }

/-- Whether the opcode fetched at the instruction pointer dispatches
to a handler that reads the zero flag. -/
def fetchedZReader (m : svm_t) : Bool :=
  match m.code[m.ip]? with
  | some b =>
      match opcodeOf b.val with
      | some op => zReaderOp op
      | none => false
  | none => false

theorem setZ_registers (m : svm_t) (b : Bool) : (setZ m b).registers = m.registers := rfl
theorem setZ_ip (m : svm_t) (b : Bool) : (setZ m b).ip = m.ip := rfl
theorem setZ_code (m : svm_t) (b : Bool) : (setZ m b).code = m.code := rfl
theorem setZ_ram (m : svm_t) (b : Bool) : (setZ m b).ram = m.ram := rfl
theorem setZ_errors (m : svm_t) (b : Bool) : (setZ m b).errors = m.errors := rfl
theorem setZ_running (m : svm_t) (b : Bool) : (setZ m b).running = m.running := rfl
theorem setZ_state (m : svm_t) (b : Bool) : (setZ m b).state = m.state := rfl

theorem operand_setZ (m : svm_t) (b : Bool) (k : Nat) :
    operand (setZ m b) k = operand m k := rfl
theorem immediate_setZ (m : svm_t) (b : Bool) (k : Nat) :
    immediate (setZ m b) k = immediate m k := rfl
theorem get_integer_setZ (m : svm_t) (b : Bool) (i : Nat) :
    get_integer (setZ m b) i = get_integer m i := rfl
theorem get_string_setZ (m : svm_t) (b : Bool) (i : Nat) :
    get_string (setZ m b) i = get_string m i := rfl
theorem get_value_setZ (m : svm_t) (b : Bool) (i : Nat) :
    get_value (setZ m b) i = get_value m i := rfl
theorem literalString_setZ (m : svm_t) (b : Bool) (k len : Nat) :
    literalString (setZ m b) k len = literalString m k len := rfl

set_option maxRecDepth 4096 in
theorem opcodeOf_lt_tableSize :
    ∀ b : Fin 256, opcodeOf b.val ≠ none → b.val < opcodesTableSize := by
  decide

theorem execOp_flags_of_not_writer (op : Opcode) (h : zWriterOp op = false)
    (m : svm_t) : (execOp op m).flags = m.flags := by
  cases op
  case Bin k => simp [zWriterOp] at h
  case Inc => simp [zWriterOp] at h
  case Dec => simp [zWriterOp] at h
  case CmpReg => simp [zWriterOp] at h
  case CmpImmediate => simp [zWriterOp] at h
  all_goals
    simp only [execOp]
    repeat' split
    all_goals rfl

theorem execOp_eraseZ (op : Opcode) (h : zReaderOp op = false)
    (m : svm_t) (bb : Bool) :
    eraseZ (execOp op (setZ m bb)) = eraseZ (execOp op m) := by
  cases op
  case JumpZ => simp [zReaderOp] at h
  case JumpNZ => simp [zReaderOp] at h
  all_goals
    simp only [execOp, execBin, operand_setZ, immediate_setZ, get_integer_setZ,
               get_string_setZ, get_value_setZ, literalString_setZ, setZ_ip,
               setZ_registers, setZ_ram, setZ_errors, setZ_code, setZ_running,
               setZ_state]
    repeat' split
    all_goals rfl

theorem svm_step_eraseZ_setZ (m : svm_t) (bb : Bool)
    (h : fetchedZReader m = false) :
    eraseZ (svm_step (setZ m bb)) = eraseZ (svm_step m) := by
  by_cases hst : m.state = MachState.Running
  · have hst' : (setZ m bb).state = MachState.Running := hst
    cases hfetch : m.code[m.ip]? with
    | none =>
        have : (setZ m bb).code[(setZ m bb).ip]? = none := hfetch
        rw [svm_step, if_pos hst', this, svm_step, if_pos hst, hfetch]
        rfl
    | some b =>
        have hfetch' : (setZ m bb).code[(setZ m bb).ip]? = some b := hfetch
        rw [svm_step, if_pos hst', hfetch', svm_step, if_pos hst, hfetch]
        cases htl : tableLookup b.val with
        | none => simp [htl]; rfl
        | some o =>
            cases o with
            | none => simp [htl]; rfl
            | some op =>
                simp only [htl]
                have hrd : zReaderOp op = false := by
                  have hu : opcodeOf b.val = some op := by
                    by_cases hlt : b.val < opcodesTableSize
                    · simpa [tableLookup, hlt] using htl
                    · simp [tableLookup, hlt] at htl
                  simpa [fetchedZReader, hfetch, hu] using h
                exact execOp_eraseZ op hrd m bb
  · have hst' : ¬ (setZ m bb).state = MachState.Running := hst
    rw [svm_step, if_neg hst', svm_step, if_neg hst]
    rfl

/-- A binary math opcode's byte (`XOR_OP` = 0x20 … `DIV_OP` = 0x24). -/
def binByte : BinKind → Fin 256
  | BinKind.xor => 0x20
  | BinKind.add => 0x21
  | BinKind.sub => 0x22
  | BinKind.mul => 0x23
  | BinKind.div => 0x24

theorem tableLookup_binByte (k : BinKind) :
    tableLookup (binByte k).val = some (some (Opcode.Bin k)) := by
  cases k <;> decide

/-- C3: the zero-flag discipline.  (1) Dispatching any registered
opcode whose handler is not one of the flag writers (the math opcodes
`XOR/ADD/SUB/MUL/DIV`, `INC`/`DEC`, `CMP_REG`, `CMP_IMMEDIATE`, as
enumerated by `zWriterOp`) leaves the zero flag unchanged.  (2) A
successful math opcode sets the flag exactly when its result is zero.
(3)/(4) `INC`/`DEC` set it exactly when the wrapped result is zero.
(5) `CMP_REG` sets it exactly when the two register values are equal
(same type and value).  (6) `CMP_IMMEDIATE` sets it exactly when the
register's integer equals the literal.  (7) Unless the fetched opcode
dispatches to one of the two conditional jumps (`zReaderOp`), the
outcome of a step is independent of the zero flag: the flag is read by
no other opcode. -/
theorem C3_zero_flag_discipline :
    (∀ (m : svm_t) (b : Fin 256) (op : Opcode),
        m.code[m.ip]? = some b → opcodeOf b.val = some op →
        zWriterOp op = false →
        (svm_step m).flags.z = m.flags.z) ∧
    (∀ (m : svm_t) (k : BinKind) (d s1 s2 : Fin 256) (a bv : Nat),
        m.state = MachState.Running →
        m.code[m.ip]? = some (binByte k) →
        m.code[m.ip + 1]? = some d →
        m.code[m.ip + 2]? = some s1 →
        m.code[m.ip + 3]? = some s2 →
        d.val < REGISTER_COUNT →
        get_integer m s1.val = Except.ok a →
        get_integer m s2.val = Except.ok bv →
        ¬ (k = BinKind.div ∧ bv = 0) →
        (svm_step m).flags.z = decide (binEval k a bv = 0)) ∧
    (∀ (m : svm_t) (r : Fin 256) (a : Nat),
        m.state = MachState.Running →
        m.code[m.ip]? = some (0x25 : Fin 256) →
        m.code[m.ip + 1]? = some r →
        get_integer m r.val = Except.ok a →
        (svm_step m).flags.z = decide ((a + 1) % UINT_MOD = 0)) ∧
    (∀ (m : svm_t) (r : Fin 256) (a : Nat),
        m.state = MachState.Running →
        m.code[m.ip]? = some (0x26 : Fin 256) →
        m.code[m.ip + 1]? = some r →
        get_integer m r.val = Except.ok a →
        (svm_step m).flags.z = decide ((UINT_MOD + a - 1) % UINT_MOD = 0)) ∧
    (∀ (m : svm_t) (r1 r2 : Fin 256) (v1 v2 : RegValue),
        m.state = MachState.Running →
        m.code[m.ip]? = some (0x40 : Fin 256) →
        m.code[m.ip + 1]? = some r1 →
        m.code[m.ip + 2]? = some r2 →
        get_value m r1.val = Except.ok v1 →
        get_value m r2.val = Except.ok v2 →
        (svm_step m).flags.z = decide (v1 = v2)) ∧
    (∀ (m : svm_t) (r : Fin 256) (a v : Nat),
        m.state = MachState.Running →
        m.code[m.ip]? = some (0x41 : Fin 256) →
        m.code[m.ip + 1]? = some r →
        immediate m 2 = Except.ok v →
        get_integer m r.val = Except.ok a →
        (svm_step m).flags.z = decide (a = v)) ∧
    (∀ (m : svm_t) (b1 b2 : Bool),
        fetchedZReader m = false →
        eraseZ (svm_step (setZ m b1)) = eraseZ (svm_step (setZ m b2))) := by
  refine ⟨?_, ?_, ?_, ?_, ?_, ?_, ?_⟩
  · intro m b op hfetch hop hw
    by_cases hst : m.state = MachState.Running
    · have hlt : b.val < opcodesTableSize :=
        opcodeOf_lt_tableSize b (by simp [hop])
      have htl : tableLookup b.val = some (some op) := by
        simp [tableLookup, hlt, hop]
      rw [svm_step, if_pos hst, hfetch]
      simp only [htl]
      exact congrArg flag_t.z (execOp_flags_of_not_writer op hw m)
    · rw [svm_step, if_neg hst]
  · intro m k d s1 s2 a bv hst h0 h1 h2 h3 hd ha hb hk
    rw [svm_step, if_pos hst, h0]
    simp only [tableLookup_binByte]
    simp [execOp, execBin, operand, h1, h2, h3, hd, ha, hb, hk]
  · intro m r a hst h0 h1 hr
    have ht : tableLookup ((0x25 : Fin 256)).val = some (some Opcode.Inc) := by
      decide
    rw [svm_step, if_pos hst, h0]
    simp only [ht]
    simp [execOp, operand, h1, hr]
  · intro m r a hst h0 h1 hr
    have ht : tableLookup ((0x26 : Fin 256)).val = some (some Opcode.Dec) := by
      decide
    rw [svm_step, if_pos hst, h0]
    simp only [ht]
    simp [execOp, operand, h1, hr]
  · intro m r1 r2 v1 v2 hst h0 h1 h2 hv1 hv2
    have ht : tableLookup ((0x40 : Fin 256)).val = some (some Opcode.CmpReg) := by
      decide
    rw [svm_step, if_pos hst, h0]
    simp only [ht]
    simp [execOp, operand, h1, h2, hv1, hv2]
  · intro m r a v hst h0 h1 hv hr
    have ht : tableLookup ((0x41 : Fin 256)).val
        = some (some Opcode.CmpImmediate) := by decide
    rw [svm_step, if_pos hst, h0]
    simp only [ht]
    simp [execOp, operand, h1, hv, hr]
  · intro m b1 b2 h
    rw [svm_step_eraseZ_setZ m b1 h, svm_step_eraseZ_setZ m b2 h]

/-- Registers with `r0 = 3`, `r1 = 4` (for the C3 witness). -/
def regs34 : List RegValue :=
  [RegValue.INTEGER 3, RegValue.INTEGER 4, RegValue.INTEGER 0,
   RegValue.INTEGER 0, RegValue.INTEGER 0, RegValue.INTEGER 0,
   RegValue.INTEGER 0, RegValue.INTEGER 0, RegValue.INTEGER 0,
   RegValue.INTEGER 0]

/-- Registers with `r0 = 5`, `r1 = 5` (for the C3 witness). -/
def regs55 : List RegValue :=
  [RegValue.INTEGER 5, RegValue.INTEGER 5, RegValue.INTEGER 0,
   RegValue.INTEGER 0, RegValue.INTEGER 0, RegValue.INTEGER 0,
   RegValue.INTEGER 0, RegValue.INTEGER 0, RegValue.INTEGER 0,
   RegValue.INTEGER 0]

/-- Witness for C3: `NOP` leaves the flag; `ADD r2,r0,r1` with
`3 + 4 = 7` clears it; `INC r0` from 0 clears it; `DEC r0` from 1
sets it; `CMP_REG` on two equal registers sets it; `CMP_IMMEDIATE`
of `r0 = 5` against literal 5 sets it; and a `NOP` step's outcome is
the same whether the flag starts true or false. -/
theorem C3_witness :
    ((svm_step (mkRunning [(0x50 : Fin 256)] initRegs)).flags.z
        = (mkRunning [(0x50 : Fin 256)] initRegs).flags.z) ∧
    ((svm_step (mkRunning [(0x21 : Fin 256), 2, 0, 1] regs34)).flags.z
        = decide (binEval BinKind.add 3 4 = 0)) ∧
    ((svm_step (mkRunning [(0x25 : Fin 256), 0] initRegs)).flags.z
        = decide ((0 + 1) % UINT_MOD = 0)) ∧
    ((svm_step (mkRunning [(0x26 : Fin 256), 0]
        [RegValue.INTEGER 1, RegValue.INTEGER 0, RegValue.INTEGER 0,
         RegValue.INTEGER 0, RegValue.INTEGER 0, RegValue.INTEGER 0,
         RegValue.INTEGER 0, RegValue.INTEGER 0, RegValue.INTEGER 0,
         RegValue.INTEGER 0])).flags.z
        = decide ((UINT_MOD + 1 - 1) % UINT_MOD = 0)) ∧
    ((svm_step (mkRunning [(0x40 : Fin 256), 0, 1] regs55)).flags.z
        = decide (RegValue.INTEGER 5 = RegValue.INTEGER 5)) ∧
    ((svm_step (mkRunning [(0x41 : Fin 256), 0, 5, 0, 0, 0] regs55)).flags.z
        = decide ((5 : Nat) = 5)) ∧
    (eraseZ (svm_step (setZ (mkRunning [(0x50 : Fin 256)] initRegs) true))
        = eraseZ (svm_step (setZ (mkRunning [(0x50 : Fin 256)] initRegs) false))) :=
  ⟨C3_zero_flag_discipline.1 (mkRunning [(0x50 : Fin 256)] initRegs)
      (0x50 : Fin 256) Opcode.Nop rfl (by decide) (by decide),
   C3_zero_flag_discipline.2.1 (mkRunning [(0x21 : Fin 256), 2, 0, 1] regs34)
      BinKind.add 2 0 1 3 4 rfl rfl rfl rfl rfl (by decide) rfl rfl
      (by decide),
   C3_zero_flag_discipline.2.2.1 (mkRunning [(0x25 : Fin 256), 0] initRegs)
      0 0 rfl rfl rfl rfl,
   C3_zero_flag_discipline.2.2.2.1 (mkRunning [(0x26 : Fin 256), 0]
      [RegValue.INTEGER 1, RegValue.INTEGER 0, RegValue.INTEGER 0,
       RegValue.INTEGER 0, RegValue.INTEGER 0, RegValue.INTEGER 0,
       RegValue.INTEGER 0, RegValue.INTEGER 0, RegValue.INTEGER 0,
       RegValue.INTEGER 0]) 0 1 rfl rfl rfl rfl,
   C3_zero_flag_discipline.2.2.2.2.1 (mkRunning [(0x40 : Fin 256), 0, 1] regs55)
      0 1 (RegValue.INTEGER 5) (RegValue.INTEGER 5) rfl rfl rfl rfl rfl rfl,
   C3_zero_flag_discipline.2.2.2.2.2.1
      (mkRunning [(0x41 : Fin 256), 0, 5, 0, 0, 0] regs55)
      0 5 5 rfl rfl rfl rfl rfl,
   C3_zero_flag_discipline.2.2.2.2.2.2
      (mkRunning [(0x50 : Fin 256)] initRegs) true false (by decide)⟩
